import Mathlib

/-!
Verification of the Mentorra backend relay (`src/backend/first_assistant.py`).

The service has three HTTP endpoints (`/api/mentor-assist`, `/api/voice/speak`,
`/api/voice/transcribe`) that shape requests for two external vendor clients
and translate every failure into a 500 response.  The shallow embedding below
models each handler as a pure function of the parsed request body and of the
vendor call outcome (the vendor is passed as a function from the forwarded
call to its outcome, so theorems can speak about exactly what is forwarded).
Python standard-library behaviour that the handlers rely on is modelled
explicitly:

* `json.loads` either raises `json.JSONDecodeError` (whose message is the
  formatted string modelled by `jsonDecodeErrorStr`) or yields a JSON value
  (`Json`); objects behave as Python dicts, so a repeated key keeps the last
  binding (`jlookup`).
* pydantic v2 lax validation of `MentorResponse(**data)` is
  `validateMentorResponse`: required fields must be present, string fields
  accept only JSON strings, the `bool` field also accepts the v2 lax
  coercions (`laxBool`: integers `1`/`0` and true/false-like strings), the
  optional `clarifying_question` defaults to `None`, extra keys are
  ignored, and a non-mapping argument raises a `TypeError`.
* Python truthiness on optional strings (`if request.active_mentor_track`,
  `file.filename or "audio.mp3"`, `if not os.getenv(...)`) treats both the
  missing value and the empty string as false; this is `truthyStr`.
-/

/-- JSON values as produced by `json.loads`.  Numbers are modelled as
integers; no claim depends on fractional numbers. -/
inductive Json where
  | null
  | bool (b : Bool)
  | num (n : Int)
  | str (s : String)
  | arr (elements : List Json)
  | obj (fields : List (String × Json))

/-- Lookup in a JSON object, with Python dict semantics: when a key is
repeated the last binding wins (as in the dict built by `json.loads`). -/
def jlookup (fields : List (String × Json)) (k : String) : Option Json :=
  fields.foldl (fun acc p => if p.1 = k then some p.2 else acc) none

/-- Python truthiness of an optional string: `None` and `""` are falsy. -/
def truthyStr : Option String → Bool
  | none => false
  | some s => s ≠ ""

/-- Result of an HTTP handler: either a 200 body or an `HTTPException`
carrying a status code and a `detail` string. -/
inductive ApiResult (α : Type) where
  | ok (value : α)
  | error (status : Nat) (detail : String)
deriving DecidableEq

/-! ### Data models (the pydantic `BaseModel` classes, lines 42-65) -/

/-- Model of `FounderProfile` (lines 42-45). -/
structure FounderProfile where
  industry : Option String
  stage : Option String
  key_challenges : List String
deriving DecidableEq

/-- Model of `UserRequest` (lines 47-51): the parsed `/api/mentor-assist`
body.  `memory_context` has pydantic default `""`, but an explicit JSON
`null` in the body yields `none` here (the field is `Optional[str]`). -/
structure UserRequest where
  user_message : String
  founder_profile : Option FounderProfile
  active_mentor_track : Option String
  memory_context : Option String
deriving DecidableEq

/-- Model of `MentorResponse` (lines 53-59). -/
structure MentorResponse where
  mentor_track : String
  switched_track : Bool
  reply : String
  clarifying_question : Option String
  next_actions : List String
  memory_update : String
deriving DecidableEq

/-- Model of `TTSRequest` after pydantic parsing (lines 61-65): each of the
three optional fields holds `none` exactly when the body carried an explicit
JSON `null`. -/
structure TTSRequest where
  text : String
  voice_id : Option String
  model_id : Option String
  output_format : Option String
deriving DecidableEq

/-- State of one optional field in a raw JSON request body: absent from the
body, an explicit `null`, or a given string. -/
inductive FieldIn where
  | absent
  | null
  | given (s : String)
deriving DecidableEq

/-- Raw `/api/voice/speak` body before pydantic fills in defaults. -/
structure TTSRequestBody where
  text : String
  voice_id : FieldIn
  model_id : FieldIn
  output_format : FieldIn
deriving DecidableEq

/-- Pydantic semantics for a field declared `Optional[str] = dflt`: the
default applies only when the field is absent; an explicit `null` stays
`None`; a given string stays itself. -/
def parseOptField (f : FieldIn) (dflt : String) : Option String :=
  match f with
  | .absent => some dflt
  | .null => none
  | .given s => some s

/-- Pydantic parsing of a `TTSRequest` body, with the declared defaults
(lines 61-65). -/
def parseTTSRequest (b : TTSRequestBody) : TTSRequest :=
  { text := b.text
    voice_id := parseOptField b.voice_id "JBFqnCBsd6RMkjVDRZzb"
    model_id := parseOptField b.model_id "eleven_monolingual_v1"
    output_format := parseOptField b.output_format "mp3_44100_128" }

/-! ### Startup key check (lines 20-23) -/

/-- Model of the module-level key check (lines 20-23), which runs before the
`FastAPI` app is created and hence before any request is served:
`if not os.getenv("OPENAI_API_KEY"): raise ValueError(...)` and likewise for
`ELEVENLABS_API_KEY`.  `os.getenv` returns `None` for an unset variable, and
`not` applies Python truthiness, so an empty value also fails.  The
environment is a map from variable name to its optional value. -/
def startup_check (env : String → Option String) : Except String Unit :=
  if !truthyStr (env "OPENAI_API_KEY") then
    Except.error "OPENAI_API_KEY is missing in .env"
  else if !truthyStr (env "ELEVENLABS_API_KEY") then
    Except.error "ELEVENLABS_API_KEY is missing in .env"
  else
    Except.ok ()

/-! ### Mentor-routing relay (`POST /api/mentor-assist`, lines 69-125) -/

/-- Model of the literal `SYSTEM_PROMPT_TEMPLATE` (lines 69-96). -/
def SYSTEM_PROMPT_TEMPLATE : String :=
  "\nYou are the Mentorra Routing Agent. You act as the brain behind a founder\x27s mentorship experience.\n"
  ++ "\nYou will receive:\n"
  ++ "- role: The current agent role (Router & Mentor Persona)\n"
  ++ "- user_message: A single string from the founder\n"
  ++ "- founder_profile: JSON summary of what we know so far\n"
  ++ "- active_mentor: Current mentor track id if already selected\n"
  ++ "- memory_context: Previous context of the conversation\n"
  ++ "\nPrimary goals:\n"
  ++ "1) Classify the user’s message into exactly ONE mentor track (e.g., \"Product\", \"Sales\", \"Fundraising\", \"Leadership\", \"Growth\").\n"
  ++ "2) Decide whether we should switch mentors or stay on the current one. Prefer stability unless the user’s intent clearly changed.\n"
  ++ "3) Reply as the selected mentor in a concise, supportive, operator style (no fluff).\n"
  ++ "4) Ask at most ONE clarifying question, only if necessary to proceed.\n"
  ++ "5) Provide 2–5 next actions that the founder can do immediately (this week).\n"
  ++ "6) Update \"memory_update\" compactly so the next call stays consistent.\n"
  ++ "\nOutput must be valid JSON matching this schema:\n"
  ++ "\x7b\n"
  ++ "  \"mentor_track\": \"string\",\n"
  ++ "  \"switched_track\": boolean,\n"
  ++ "  \"reply\": \"string\",\n"
  ++ "  \"clarifying_question\": \"string or null\",\n"
  ++ "  \"next_actions\": [\"action1\", \"action2\"],\n"
  ++ "  \"memory_update\": \"string summary of new facts\"\n"
  ++ "\x7d\n"

/-- Minimal JSON string escaping used when pydantic serialises a model
(backslash and double quote). -/
def jsonEscapeChar (c : Char) : String :=
  if c = '\\' then "\\\\" else if c = '"' then "\\\"" else String.singleton c

/-- JSON rendering of a string, in double quotes. -/
def jsonStr (s : String) : String :=
  "\"" ++ String.join (s.data.map jsonEscapeChar) ++ "\""

/-- JSON rendering of an optional string: `null` when missing. -/
def jsonOptStr : Option String → String
  | none => "null"
  | some s => jsonStr s

/-- JSON rendering of a list of strings. -/
def jsonStrList (xs : List String) : String :=
  "[" ++ String.intercalate "," (xs.map jsonStr) ++ "]"

/-- Model of `FounderProfile.model_dump_json()` (pydantic compact JSON with
the fields in declaration order, line 105). -/
def model_dump_json (p : FounderProfile) : String :=
  "\x7b\"industry\":" ++ jsonOptStr p.industry
  ++ ",\"stage\":" ++ jsonOptStr p.stage
  ++ ",\"key_challenges\":" ++ jsonStrList p.key_challenges ++ "\x7d"

/-- String spliced into the active-track position of the context (line 104):
`request.active_mentor_track if request.active_mentor_track else "None"`.
Python truthiness makes both a missing track and an empty track render as
the literal `None`. -/
def activeTrackField (r : UserRequest) : String :=
  match r.active_mentor_track with
  | some s => if s = "" then "None" else s
  | none => "None"

/-- String spliced into the founder-profile position of the context
(line 105): the profile JSON when a profile is supplied (a pydantic model
instance is always truthy), else the literal `Unknown`. -/
def founderProfileField (r : UserRequest) : String :=
  match r.founder_profile with
  | some p => model_dump_json p
  | none => "Unknown"

/-- String spliced into the memory-context position (line 106): Python
renders `None` for an explicit null, else the string itself. -/
def memoryContextField (r : UserRequest) : String :=
  match r.memory_context with
  | some s => s
  | none => "None"

/-- Model of the `user_input_context` f-string (lines 101-107), including
the triple-quoted literal indentation. -/
def user_input_context (r : UserRequest) : String :=
  "\n        INPUT DATA:\n        - User Message: \"" ++ r.user_message
  ++ "\"\n        - Active Mentor Track: " ++ activeTrackField r
  ++ "\n        - Founder Profile: " ++ founderProfileField r
  ++ "\n        - Memory Context: " ++ memoryContextField r
  ++ "\n        "

/-- Parameters of the chat-completion call (lines 109-117). -/
structure ChatCall where
  model : String
  system_content : String
  user_content : String
  json_mode : Bool
deriving DecidableEq

/-- The completion call built by `mentor_assist` for a given request. -/
def mentorChatCall (r : UserRequest) : ChatCall :=
  { model := "gpt-4-turbo"
    system_content := SYSTEM_PROMPT_TEMPLATE
    user_content := user_input_context r
    json_mode := true }

/-- Message of `json.JSONDecodeError`: CPython formats it as
`msg: line L column C (char P)`, which is never empty. -/
def jsonDecodeErrorStr (msg : String) (lineno colno pos : Nat) : String :=
  msg ++ ": line " ++ toString lineno ++ " column " ++ toString colno
  ++ " (char " ++ toString pos ++ ")"

/-- Outcome of running `json.loads` on the text the completion returned:
either a `JSONDecodeError` (with the data CPython formats into its message)
or a parsed JSON value. -/
inductive JsonParse where
  | invalid (msg : String) (lineno colno pos : Nat)
  | valid (j : Json)

/-- Outcome of the completion API call itself: the call raises (vendor or
network error, with the exception text) or returns content text, which is
carried here together with its `json.loads` outcome. -/
inductive CompletionResult where
  | failure (err : String)
  | success (content : JsonParse)

/-- Pydantic reading of a required `str` field. -/
def getStrField (fields : List (String × Json)) (k : String) : Option String :=
  match jlookup fields k with
  | some (.str s) => some s
  | _ => none

/-- Reading of a JSON value as an exact `bool`, with no coercion. -/
def getBoolField (fields : List (String × Json)) (k : String) : Option Bool :=
  match jlookup fields k with
  | some (.bool b) => some b
  | _ => none

/-- ASCII lower-casing of one character. -/
def asciiLowerChar (c : Char) : Char :=
  if 'A' ≤ c ∧ c ≤ 'Z' then Char.ofNat (c.toNat + 32) else c

/-- ASCII lower-casing of a string (pydantic-core compares the true/false
words case-insensitively over ASCII). -/
def asciiLower (s : String) : String :=
  ⟨s.data.map asciiLowerChar⟩

/-- Pydantic v2 lax-mode reading of a JSON value into a `bool` field
(pydantic-core semantics): a JSON boolean is taken as is; the integers `1`
and `0` coerce to `true` and `false`; a string coerces case-insensitively
when it is one of `true/t/yes/y/on/1` or `false/f/no/n/off/0`; anything
else is a validation error. -/
def laxBool : Json → Option Bool
  | .bool b => some b
  | .num n => if n = 1 then some true else if n = 0 then some false else none
  | .str s =>
    let t := asciiLower s
    if t = "true" ∨ t = "t" ∨ t = "yes" ∨ t = "y" ∨ t = "on" ∨ t = "1" then
      some true
    else if t = "false" ∨ t = "f" ∨ t = "no" ∨ t = "n" ∨ t = "off" ∨ t = "0" then
      some false
    else none
  | _ => none

/-- Pydantic v2 lax reading of a required `bool` field: the field must be
present and its value must lax-coerce to a boolean. -/
def getLaxBoolField (fields : List (String × Json)) (k : String) : Option Bool :=
  match jlookup fields k with
  | some v => laxBool v
  | none => none

/-- Elements of a JSON array read as a `List[str]`. -/
def asStringList : List Json → Option (List String)
  | [] => some []
  | .str s :: rest => (asStringList rest).map (fun t => s :: t)
  | _ :: _ => none

/-- Pydantic reading of a required `List[str]` field. -/
def getStrListField (fields : List (String × Json)) (k : String) :
    Option (List String) :=
  match jlookup fields k with
  | some (.arr xs) => asStringList xs
  | _ => none

/-- Pydantic reading of `clarifying_question: Optional[str] = None`: an
absent field or an explicit `null` gives `None`; a string stays itself; any
other value is a validation error (outer `none`). -/
def getOptStrField (fields : List (String × Json)) (k : String) :
    Option (Option String) :=
  match jlookup fields k with
  | none => some none
  | some .null => some none
  | some (.str s) => some (some s)
  | some _ => none

/-- Model of `MentorResponse(**data)` (line 121) under pydantic v2 default
(lax) validation: required fields must be present, `str` and `List[str]`
fields accept only JSON strings (v2 does not coerce numbers to strings),
the `bool` field additionally accepts the lax coercions of `laxBool`
(integers `1`/`0` and true/false-like strings), `clarifying_question`
defaults to `None`, extra keys are ignored (pydantic default
`extra="ignore"`), and unpacking a non-mapping raises `TypeError`.  The
error string stands for `str(e)` of the raised exception. -/
def validateMentorResponse (j : Json) : Except String MentorResponse :=
  match j with
  | .obj fields =>
    match getStrField fields "mentor_track" with
    | none => Except.error "1 validation error for MentorResponse: mentor_track"
    | some mentor_track =>
    match getLaxBoolField fields "switched_track" with
    | none => Except.error "1 validation error for MentorResponse: switched_track"
    | some switched_track =>
    match getStrField fields "reply" with
    | none => Except.error "1 validation error for MentorResponse: reply"
    | some reply =>
    match getOptStrField fields "clarifying_question" with
    | none => Except.error "1 validation error for MentorResponse: clarifying_question"
    | some clarifying_question =>
    match getStrListField fields "next_actions" with
    | none => Except.error "1 validation error for MentorResponse: next_actions"
    | some next_actions =>
    match getStrField fields "memory_update" with
    | none => Except.error "1 validation error for MentorResponse: memory_update"
    | some memory_update =>
      Except.ok
        { mentor_track, switched_track, reply, clarifying_question,
          next_actions, memory_update }
  | _ => Except.error "mentor_assist() argument after ** must be a mapping"

/-- Model of the `mentor_assist` handler (lines 98-125).  The vendor is a
function from the forwarded chat call to its outcome; any exception in the
`try` block is converted to a 500 `HTTPException` whose detail is `str(e)`
(lines 123-125). -/
def mentor_assist (request : UserRequest)
    (vendor : ChatCall → CompletionResult) : ApiResult MentorResponse :=
  match vendor (mentorChatCall request) with
  | .failure e => .error 500 e
  | .success (.invalid m l c p) => .error 500 (jsonDecodeErrorStr m l c p)
  | .success (.valid j) =>
    match validateMentorResponse j with
    | .ok r => .ok r
    | .error e => .error 500 e

/-! ### Speech-synthesis relay (`POST /api/voice/speak`, lines 129-152) -/

/-- Parameters of `elevenlabs_client.text_to_speech.convert` as forwarded by
the handler (lines 136-141): each request field is passed through unchanged. -/
structure ConvertCall where
  voice_id : Option String
  model_id : Option String
  text : String
  output_format : Option String
deriving DecidableEq

/-- The synthesis call built by `text_to_speech` for a given parsed request. -/
def ttsForwardedCall (r : TTSRequest) : ConvertCall :=
  { voice_id := r.voice_id
    model_id := r.model_id
    text := r.text
    output_format := r.output_format }

/-- Model of the `iterfile` generator (lines 143-146): forward each chunk of
the vendor stream in arrival order, skipping falsy (empty) chunks.  A byte
chunk is a list of byte values. -/
def iterfile (audio_stream : List (List Nat)) : List (List Nat) :=
  audio_stream.filter (fun chunk => chunk ≠ [])

/-- Model of `StreamingResponse` (line 148): the emitted chunk sequence and
the media type. -/
structure StreamingResponse where
  chunks : List (List Nat)
  media_type : String
deriving DecidableEq

/-- Model of the `text_to_speech` handler (lines 129-152).  The vendor is a
function from the forwarded convert call to its outcome (either the finite
chunk sequence of the audio stream, or an exception text); any exception is
converted to a 500 whose detail is the f-string
`Text-to-speech failed: str(e)` (line 152). -/
def text_to_speech (request : TTSRequest)
    (vendor : ConvertCall → Except String (List (List Nat))) :
    ApiResult StreamingResponse :=
  match vendor (ttsForwardedCall request) with
  | .ok audio_stream => .ok { chunks := iterfile audio_stream, media_type := "audio/mpeg" }
  | .error e => .error 500 ("Text-to-speech failed: " ++ e)

/-! ### Transcription relay (`POST /api/voice/transcribe`, lines 154-174) -/

/-- Model of the uploaded file: its declared filename (which FastAPI may
report as missing) and its content bytes. -/
structure UploadFile where
  filename : Option String
  content : List Nat
deriving DecidableEq

/-- Filename attached to the in-memory buffer (line 163):
`file.filename or "audio.mp3"`.  Python `or` falls back on falsy values, so
both a missing and an empty filename become `audio.mp3`. -/
def forwardedFilename : Option String → String
  | some s => if s = "" then "audio.mp3" else s
  | none => "audio.mp3"

/-- Parameters of `openai_client.audio.transcriptions.create` as forwarded
by the handler (lines 165-168). -/
structure TranscriptionCall where
  model : String
  filename : String
  content : List Nat
deriving DecidableEq

/-- The transcription call built by `speech_to_text` for an uploaded file. -/
def sttForwardedCall (file : UploadFile) : TranscriptionCall :=
  { model := "whisper-1"
    filename := forwardedFilename file.filename
    content := file.content }

/-- Body of the 200 response of `/api/voice/transcribe` (line 170). -/
structure SttResponse where
  text : String
deriving DecidableEq

/-- Model of the `speech_to_text` handler (lines 154-174).  The vendor is a
function from the forwarded transcription call to its outcome (the
transcript text, or an exception text); any exception is converted to a 500
whose detail is the f-string `Transcription failed: str(e)` (line 174). -/
def speech_to_text (file : UploadFile)
    (vendor : TranscriptionCall → Except String String) :
    ApiResult SttResponse :=
  match vendor (sttForwardedCall file) with
  | .ok transcript => .ok { text := transcript }
  | .error e => .error 500 ("Transcription failed: " ++ e)

/-! ### Helper lemmas -/

/-- Appending a non-empty string on the right never yields the empty string. -/
theorem append_ne_empty_right (a b : String) (hb : b ≠ "") : a ++ b ≠ "" := by
  intro h
  apply hb
  have hl := congrArg String.length h
  rw [String.length_append] at hl
  have hl2 : a.length = 0 ∧ b.length = 0 := by simpa using hl
  have hb0 : b.length = 0 := hl2.2
  cases b with
  | mk data =>
    simp [String.length] at hb0
    simp [hb0]

/-- The formatted `json.JSONDecodeError` message is never empty. -/
theorem jsonDecodeErrorStr_ne_empty (m : String) (l c p : Nat) :
    jsonDecodeErrorStr m l c p ≠ "" := by
  unfold jsonDecodeErrorStr
  exact append_ne_empty_right _ _ (by decide)

/-- A field that holds an exact JSON boolean also passes the lax reading,
with the same value. -/
theorem getLaxBoolField_of_getBoolField (fields : List (String × Json))
    (k : String) (b : Bool) (h : getBoolField fields k = some b) :
    getLaxBoolField fields k = some b := by
  unfold getBoolField at h
  unfold getLaxBoolField
  cases hj : jlookup fields k with
  | none => rw [hj] at h; cases h
  | some v => rw [hj] at h; cases v <;> simp_all [laxBool]

/-- Every validation error message of `validateMentorResponse` is non-empty. -/
theorem validateMentorResponse_error_ne_empty (j : Json) (e : String)
    (h : validateMentorResponse j = Except.error e) : e ≠ "" := by
  cases j <;> simp only [validateMentorResponse] at h
  all_goals first
    | (injection h with he; subst he; decide)
    | (repeat' split at h
       all_goals first
         | (injection h with he; subst he; decide)
         | cases h)

/-! ### Claim theorems -/

/-- C1: for every MentorRequest, when the completion API returns text that
parses as JSON and conforms to the MentorResponse schema (each schema field
present with its declared type, `clarifying_question` possibly `null`), the
`/api/mentor-assist` endpoint returns a 200 MentorResponse whose fields equal
the corresponding fields of that JSON exactly, with no modification. -/
theorem mentor_assist_passthrough (req : UserRequest)
    (vendor : ChatCall → CompletionResult) (fields : List (String × Json))
    (mt : String) (st : Bool) (rp : String) (cq : Option String)
    (na : List String) (mu : String)
    (hv : vendor (mentorChatCall req) = .success (.valid (.obj fields)))
    (h1 : getStrField fields "mentor_track" = some mt)
    (h2 : getBoolField fields "switched_track" = some st)
    (h3 : getStrField fields "reply" = some rp)
    (h4 : getOptStrField fields "clarifying_question" = some cq)
    (h5 : getStrListField fields "next_actions" = some na)
    (h6 : getStrField fields "memory_update" = some mu) :
    mentor_assist req vendor =
      .ok { mentor_track := mt, switched_track := st, reply := rp,
            clarifying_question := cq, next_actions := na, memory_update := mu } := by
  have h2l := getLaxBoolField_of_getBoolField fields "switched_track" st h2
  simp [mentor_assist, hv, validateMentorResponse, h1, h2l, h3, h4, h5, h6]

/-- Witness for C1 at a concrete request and a concrete conformant JSON
object. -/
theorem mentor_assist_passthrough_witness :
    mentor_assist
      { user_message := "hi", founder_profile := none,
        active_mentor_track := none, memory_context := some "" }
      (fun _ => .success (.valid (.obj
        [("mentor_track", .str "Product"), ("switched_track", .bool true),
         ("reply", .str "Ship it"), ("clarifying_question", .null),
         ("next_actions", .arr [.str "a", .str "b"]),
         ("memory_update", .str "m")]))) =
      .ok { mentor_track := "Product", switched_track := true,
            reply := "Ship it", clarifying_question := none,
            next_actions := ["a", "b"], memory_update := "m" } :=
  mentor_assist_passthrough _ _ _ _ _ _ _ _ _ rfl rfl rfl rfl rfl rfl rfl

/-- C2 counterexample: the completion JSON object below does not conform to
the MentorResponse schema — `switched_track` holds the JSON string
`"true"`, not a boolean, so the exact-typed reading fails — yet the
endpoint returns a 200 response in which pydantic v2 lax validation has
coerced `switched_track` to the boolean `true`; so non-conformant JSON does
not always yield a 500, and a 200 with repaired data is possible. -/
theorem mentor_assist_malformed_counterexample :
    getBoolField
      [("mentor_track", Json.str "Product"),
       ("switched_track", Json.str "true"), ("reply", Json.str "r"),
       ("next_actions", Json.arr [Json.str "a"]),
       ("memory_update", Json.str "m")] "switched_track" = none ∧
    mentor_assist
      { user_message := "hi", founder_profile := none,
        active_mentor_track := none, memory_context := some "" }
      (fun _ => .success (.valid (.obj
        [("mentor_track", Json.str "Product"),
         ("switched_track", Json.str "true"), ("reply", Json.str "r"),
         ("next_actions", Json.arr [Json.str "a"]),
         ("memory_update", Json.str "m")]))) =
      .ok { mentor_track := "Product", switched_track := true,
            reply := "r", clarifying_question := none,
            next_actions := ["a"], memory_update := "m" } :=
  ⟨rfl, rfl⟩

/-- C2 amended: for every MentorRequest, when the completion API's returned
text is not valid JSON, or is JSON that does not validate against the
MentorResponse schema even under pydantic v2 lax coercion (which repairs a
`switched_track` given as `1`/`0` or a true/false-like string),
`/api/mentor-assist` returns a 500 response with a non-empty error detail
and never a 200 response. -/
theorem mentor_assist_malformed_500 :
    (∀ (req : UserRequest) (vendor : ChatCall → CompletionResult)
      (m : String) (l c p : Nat),
      vendor (mentorChatCall req) = .success (.invalid m l c p) →
      mentor_assist req vendor = .error 500 (jsonDecodeErrorStr m l c p) ∧
        jsonDecodeErrorStr m l c p ≠ "" ∧
        ∀ r, mentor_assist req vendor ≠ .ok r) ∧
    (∀ (req : UserRequest) (vendor : ChatCall → CompletionResult)
      (j : Json) (e : String),
      vendor (mentorChatCall req) = .success (.valid j) →
      validateMentorResponse j = .error e →
      mentor_assist req vendor = .error 500 e ∧ e ≠ "" ∧
        ∀ r, mentor_assist req vendor ≠ .ok r) := by
  constructor
  · intro req vendor m l c p hv
    refine ⟨by simp [mentor_assist, hv], jsonDecodeErrorStr_ne_empty m l c p, ?_⟩
    intro r
    simp [mentor_assist, hv]
  · intro req vendor j e hv he
    refine ⟨by simp [mentor_assist, hv, he],
      validateMentorResponse_error_ne_empty j e he, ?_⟩
    intro r
    simp [mentor_assist, hv, he]

/-- Witness for C2 at a concrete request whose mocked completion returns
text that is not valid JSON. -/
theorem mentor_assist_malformed_500_witness :
    mentor_assist
      { user_message := "hi", founder_profile := none,
        active_mentor_track := none, memory_context := some "" }
      (fun _ => .success (.invalid "Expecting value" 1 1 0)) =
      .error 500 (jsonDecodeErrorStr "Expecting value" 1 1 0) ∧
    jsonDecodeErrorStr "Expecting value" 1 1 0 ≠ "" :=
  have h := mentor_assist_malformed_500.1
    { user_message := "hi", founder_profile := none,
      active_mentor_track := none, memory_context := some "" }
    (fun _ => .success (.invalid "Expecting value" 1 1 0))
    "Expecting value" 1 1 0 rfl
  ⟨h.1, h.2.1⟩

/-- C10: for every completion-API JSON object carrying all required
MentorResponse fields plus extra fields not in the schema,
`/api/mentor-assist` succeeds with a 200 response containing only the schema
fields (the `fields` list below is arbitrary, so it may contain any extra
keys, which are simply never read); an absent `clarifying_question` is
returned as `null` rather than causing an error. -/
theorem mentor_assist_extra_fields_ignored (req : UserRequest)
    (vendor : ChatCall → CompletionResult) (fields : List (String × Json))
    (mt : String) (st : Bool) (rp : String) (na : List String) (mu : String)
    (hv : vendor (mentorChatCall req) = .success (.valid (.obj fields)))
    (h1 : getStrField fields "mentor_track" = some mt)
    (h2 : getBoolField fields "switched_track" = some st)
    (h3 : getStrField fields "reply" = some rp)
    (hq : jlookup fields "clarifying_question" = none)
    (h5 : getStrListField fields "next_actions" = some na)
    (h6 : getStrField fields "memory_update" = some mu) :
    mentor_assist req vendor =
      .ok { mentor_track := mt, switched_track := st, reply := rp,
            clarifying_question := none, next_actions := na,
            memory_update := mu } := by
  have h4 : getOptStrField fields "clarifying_question" = some none := by
    simp [getOptStrField, hq]
  have h2l := getLaxBoolField_of_getBoolField fields "switched_track" st h2
  simp [mentor_assist, hv, validateMentorResponse, h1, h2l, h3, h4, h5, h6]

/-- Witness for C10 at a concrete JSON object that carries two extra fields
(`confidence`, `debug`) and omits `clarifying_question`. -/
theorem mentor_assist_extra_fields_ignored_witness :
    mentor_assist
      { user_message := "hi", founder_profile := none,
        active_mentor_track := none, memory_context := some "" }
      (fun _ => .success (.valid (.obj
        [("mentor_track", .str "Sales"), ("confidence", .num 9),
         ("switched_track", .bool false), ("reply", .str "Call them"),
         ("next_actions", .arr [.str "x"]), ("memory_update", .str "m2"),
         ("debug", .str "extra")]))) =
      .ok { mentor_track := "Sales", switched_track := false,
            reply := "Call them", clarifying_question := none,
            next_actions := ["x"], memory_update := "m2" } :=
  mentor_assist_extra_fields_ignored _ _ _ _ _ _ _ _ rfl rfl rfl rfl rfl rfl rfl

/-- C3 counterexample: on `/api/voice/speak` a vendor exception with text
`boom` produces a 500 whose detail is `Text-to-speech failed: boom`, which
is not the raw exception text `boom` — so the three endpoints do not
uniformly put the raw exception text in `detail`. -/
theorem error_detail_counterexample :
    text_to_speech
      { text := "hello", voice_id := some "JBFqnCBsd6RMkjVDRZzb",
        model_id := some "eleven_monolingual_v1",
        output_format := some "mp3_44100_128" }
      (fun _ => .error "boom") =
      .error 500 "Text-to-speech failed: boom" ∧
    ("Text-to-speech failed: boom" : String) ≠ "boom" :=
  ⟨rfl, by decide⟩

/-- C3 amended: every failing request on any of the three endpoints returns
a 500-status response whose detail carries the exception text — equal to it
on `/api/mentor-assist`, and prefixed by the fixed labels
`Text-to-speech failed: ` and `Transcription failed: ` on the two voice
endpoints. -/
theorem error_detail_amended :
    (∀ (req : UserRequest) (vendor : ChatCall → CompletionResult) (e : String),
      vendor (mentorChatCall req) = .failure e →
      mentor_assist req vendor = .error 500 e) ∧
    (∀ (req : UserRequest) (vendor : ChatCall → CompletionResult)
      (m : String) (l c p : Nat),
      vendor (mentorChatCall req) = .success (.invalid m l c p) →
      mentor_assist req vendor = .error 500 (jsonDecodeErrorStr m l c p)) ∧
    (∀ (req : UserRequest) (vendor : ChatCall → CompletionResult)
      (j : Json) (e : String),
      vendor (mentorChatCall req) = .success (.valid j) →
      validateMentorResponse j = .error e →
      mentor_assist req vendor = .error 500 e) ∧
    (∀ (req : TTSRequest)
      (vendor : ConvertCall → Except String (List (List Nat))) (e : String),
      vendor (ttsForwardedCall req) = .error e →
      text_to_speech req vendor = .error 500 ("Text-to-speech failed: " ++ e)) ∧
    (∀ (file : UploadFile) (vendor : TranscriptionCall → Except String String)
      (e : String),
      vendor (sttForwardedCall file) = .error e →
      speech_to_text file vendor = .error 500 ("Transcription failed: " ++ e)) := by
  refine ⟨?_, ?_, ?_, ?_, ?_⟩
  · intro req vendor e hv
    simp [mentor_assist, hv]
  · intro req vendor m l c p hv
    simp [mentor_assist, hv]
  · intro req vendor j e hv he
    simp [mentor_assist, hv, he]
  · intro req vendor e hv
    simp [text_to_speech, hv]
  · intro file vendor e hv
    simp [speech_to_text, hv]

/-- Witness for the amended C3: a concrete transcription request whose
mocked vendor raises an exception with text `io error`. -/
theorem error_detail_amended_witness :
    speech_to_text { filename := some "a.wav", content := [1, 2] }
      (fun _ => .error "io error") =
      .error 500 ("Transcription failed: " ++ "io error") :=
  error_detail_amended.2.2.2.2
    { filename := some "a.wav", content := [1, 2] }
    (fun _ => .error "io error") "io error" rfl

/-- C4: for every TTSRequest body in which `voice_id`, `model_id` or
`output_format` is omitted, the convert call forwarded to the speech vendor
uses exactly `JBFqnCBsd6RMkjVDRZzb`, `eleven_monolingual_v1` and
`mp3_44100_128` for the omitted parameters, respectively. -/
theorem tts_defaults (b : TTSRequestBody) :
    (b.voice_id = .absent →
      (ttsForwardedCall (parseTTSRequest b)).voice_id = some "JBFqnCBsd6RMkjVDRZzb") ∧
    (b.model_id = .absent →
      (ttsForwardedCall (parseTTSRequest b)).model_id = some "eleven_monolingual_v1") ∧
    (b.output_format = .absent →
      (ttsForwardedCall (parseTTSRequest b)).output_format = some "mp3_44100_128") := by
  refine ⟨?_, ?_, ?_⟩ <;> intro h <;>
    simp [ttsForwardedCall, parseTTSRequest, parseOptField, h]

/-- Witness for C4 at a concrete body that omits all three parameters. -/
theorem tts_defaults_witness :
    (ttsForwardedCall (parseTTSRequest
        { text := "hi", voice_id := .absent, model_id := .absent,
          output_format := .absent })).voice_id = some "JBFqnCBsd6RMkjVDRZzb" ∧
    (ttsForwardedCall (parseTTSRequest
        { text := "hi", voice_id := .absent, model_id := .absent,
          output_format := .absent })).model_id = some "eleven_monolingual_v1" ∧
    (ttsForwardedCall (parseTTSRequest
        { text := "hi", voice_id := .absent, model_id := .absent,
          output_format := .absent })).output_format = some "mp3_44100_128" :=
  have h := tts_defaults
    { text := "hi", voice_id := .absent, model_id := .absent,
      output_format := .absent }
  ⟨h.1 rfl, h.2.1 rfl, h.2.2 rfl⟩

/-- C9: for every TTSRequest body that supplies an explicit `null` for
`voice_id`, `model_id` or `output_format`, the null value is forwarded to
the speech vendor as-is, and a given string is forwarded unchanged; the
fixed defaults are substituted only when the field is absent from the body. -/
theorem tts_null_passthrough (b : TTSRequestBody) :
    (b.voice_id = .null → (ttsForwardedCall (parseTTSRequest b)).voice_id = none) ∧
    (b.model_id = .null → (ttsForwardedCall (parseTTSRequest b)).model_id = none) ∧
    (b.output_format = .null → (ttsForwardedCall (parseTTSRequest b)).output_format = none) ∧
    (∀ s, b.voice_id = .given s → (ttsForwardedCall (parseTTSRequest b)).voice_id = some s) ∧
    (∀ s, b.model_id = .given s → (ttsForwardedCall (parseTTSRequest b)).model_id = some s) ∧
    (∀ s, b.output_format = .given s → (ttsForwardedCall (parseTTSRequest b)).output_format = some s) := by
  refine ⟨?_, ?_, ?_, ?_, ?_, ?_⟩ <;>
    first
      | (intro h; simp [ttsForwardedCall, parseTTSRequest, parseOptField, h])
      | (intro s h; simp [ttsForwardedCall, parseTTSRequest, parseOptField, h])

/-- Witness for C9 at a concrete body with explicit nulls and at a concrete
body with explicit values. -/
theorem tts_null_passthrough_witness :
    (ttsForwardedCall (parseTTSRequest
        { text := "hi", voice_id := .null, model_id := .null,
          output_format := .null })).voice_id = none ∧
    (ttsForwardedCall (parseTTSRequest
        { text := "hi", voice_id := .null, model_id := .null,
          output_format := .null })).model_id = none ∧
    (ttsForwardedCall (parseTTSRequest
        { text := "hi", voice_id := .null, model_id := .null,
          output_format := .null })).output_format = none ∧
    (ttsForwardedCall (parseTTSRequest
        { text := "hi", voice_id := .given "v1", model_id := .given "m1",
          output_format := .given "f1" })).voice_id = some "v1" :=
  have hn := tts_null_passthrough
    { text := "hi", voice_id := .null, model_id := .null,
      output_format := .null }
  have hg := tts_null_passthrough
    { text := "hi", voice_id := .given "v1", model_id := .given "m1",
      output_format := .given "f1" }
  ⟨hn.1 rfl, hn.2.1 rfl, hn.2.2.1 rfl, hg.2.2.2.1 "v1" rfl⟩

/-- Dropping the empty chunks does not change the concatenated bytes. -/
theorem iterfile_flatten (l : List (List Nat)) :
    (iterfile l).flatten = l.flatten := by
  unfold iterfile
  induction l with
  | nil => rfl
  | cons c t ih =>
    simp only [List.filter_cons]
    by_cases hc : c = []
    · simp only [hc]
      simpa using ih
    · have hd : (decide ¬(c = [])) = true := by simp [hc]
      simp only [ne_eq, hd, if_true, List.flatten_cons]
      rw [ih]

/-- C5: for every finite sequence of byte chunks produced by the speech
vendor's synthesis stream, `/api/voice/speak` responds with the chunks of
`iterfile`, whose concatenation equals the concatenation of the vendor's
chunks — bytes are forwarded in the same order (the emitted chunk list is a
sublist of the vendor's) with no byte loss, though chunk boundaries (empty
chunks) need not be preserved. -/
theorem tts_stream_concat (req : TTSRequest)
    (vendor : ConvertCall → Except String (List (List Nat)))
    (chunks : List (List Nat))
    (hv : vendor (ttsForwardedCall req) = .ok chunks) :
    text_to_speech req vendor =
      .ok { chunks := iterfile chunks, media_type := "audio/mpeg" } ∧
    (iterfile chunks).flatten = chunks.flatten ∧
    (iterfile chunks).Sublist chunks := by
  refine ⟨by simp [text_to_speech, hv], iterfile_flatten chunks, ?_⟩
  exact List.filter_sublist chunks

/-- Witness for C5 at a concrete vendor stream containing an empty chunk. -/
theorem tts_stream_concat_witness :
    text_to_speech
      { text := "hi", voice_id := some "v", model_id := some "m",
        output_format := some "f" }
      (fun _ => .ok [[1, 2], [], [3]]) =
      .ok { chunks := iterfile [[1, 2], [], [3]], media_type := "audio/mpeg" } ∧
    (iterfile [[1, 2], [], [3]]).flatten = ([[1, 2], [], [3]] : List (List Nat)).flatten ∧
    (iterfile [[1, 2], [], [3]]).Sublist [[1, 2], [], [3]] :=
  tts_stream_concat
    { text := "hi", voice_id := some "v", model_id := some "m",
      output_format := some "f" }
    (fun _ => .ok [[1, 2], [], [3]]) [[1, 2], [], [3]] rfl

/-- C6 counterexample: a request in which both `active_mentor_track` and
`founder_profile` are present, but the track is the empty string, puts the
literal `None` — not the supplied track verbatim — in the active-track
position of the context (Python truthiness treats `""` as false). -/
theorem context_markers_counterexample :
    ({ user_message := "hi",
       founder_profile := some { industry := none, stage := none, key_challenges := [] },
       active_mentor_track := some "",
       memory_context := some "" } : UserRequest).active_mentor_track = some "" ∧
    activeTrackField
      { user_message := "hi",
        founder_profile := some { industry := none, stage := none, key_challenges := [] },
        active_mentor_track := some "",
        memory_context := some "" } = "None" ∧
    ("None" : String) ≠ "" :=
  ⟨rfl, rfl, by decide⟩

/-- C6 amended: if `founder_profile` is omitted the context string sent to
the completion API carries the literal marker `Unknown` in the
founder-profile position, and if `active_mentor_track` is omitted it carries
the literal marker `None` in the active-track position; when both are
present and the active track is non-empty, the context embeds the active
track verbatim and a JSON rendering of the profile instead (an empty
present track also renders as `None`).  The final conjunct ties the field
positions to the full context string that `mentor_assist` forwards. -/
theorem context_markers (r : UserRequest) :
    (r.active_mentor_track = none → activeTrackField r = "None") ∧
    (r.founder_profile = none → founderProfileField r = "Unknown") ∧
    (∀ t, r.active_mentor_track = some t → t ≠ "" → activeTrackField r = t) ∧
    (∀ p, r.founder_profile = some p → founderProfileField r = model_dump_json p) ∧
    (∃ a b c : String,
      (mentorChatCall r).user_content =
        a ++ activeTrackField r ++ b ++ founderProfileField r ++ c) := by
  refine ⟨?_, ?_, ?_, ?_, ?_⟩
  · intro h
    simp [activeTrackField, h]
  · intro h
    simp [founderProfileField, h]
  · intro t ht hne
    simp [activeTrackField, ht, hne]
  · intro p hp
    simp [founderProfileField, hp]
  · refine ⟨"\n        INPUT DATA:\n        - User Message: \"" ++ r.user_message
      ++ "\"\n        - Active Mentor Track: ",
      "\n        - Founder Profile: ",
      "\n        - Memory Context: " ++ memoryContextField r ++ "\n        ", ?_⟩
    simp [mentorChatCall, user_input_context, String.append_assoc]

/-- Witness for the amended C6: a concrete request with a non-empty track
and a profile, and a concrete request omitting both. -/
theorem context_markers_witness :
    activeTrackField
      { user_message := "hi",
        founder_profile := some { industry := some "saas", stage := none, key_challenges := ["churn"] },
        active_mentor_track := some "Product",
        memory_context := some "" } = "Product" ∧
    founderProfileField
      { user_message := "hi",
        founder_profile := some { industry := some "saas", stage := none, key_challenges := ["churn"] },
        active_mentor_track := some "Product",
        memory_context := some "" } =
      model_dump_json { industry := some "saas", stage := none, key_challenges := ["churn"] } ∧
    activeTrackField
      { user_message := "hi", founder_profile := none,
        active_mentor_track := none, memory_context := some "" } = "None" ∧
    founderProfileField
      { user_message := "hi", founder_profile := none,
        active_mentor_track := none, memory_context := some "" } = "Unknown" :=
  have h1 := context_markers
    { user_message := "hi",
      founder_profile := some { industry := some "saas", stage := none, key_challenges := ["churn"] },
      active_mentor_track := some "Product",
      memory_context := some "" }
  have h2 := context_markers
    { user_message := "hi", founder_profile := none,
      active_mentor_track := none, memory_context := some "" }
  ⟨h1.2.2.1 "Product" rfl (by decide), h1.2.2.2.1 _ rfl, h2.1 rfl, h2.2.1 rfl⟩

/-- C7: for every upload on `/api/voice/transcribe` with no filename, the
bytes are forwarded to the transcription vendor under the filename
`audio.mp3` (model `whisper-1`, content unchanged); and for every transcript
the vendor returns, the endpoint returns exactly `{text: <transcript>}`
unchanged. -/
theorem transcribe_default_filename (file : UploadFile)
    (vendor : TranscriptionCall → Except String String) :
    (file.filename = none →
      sttForwardedCall file =
        { model := "whisper-1", filename := "audio.mp3", content := file.content }) ∧
    (∀ t, vendor (sttForwardedCall file) = .ok t →
      speech_to_text file vendor = .ok { text := t }) := by
  constructor
  · intro h
    simp [sttForwardedCall, forwardedFilename, h]
  · intro t hv
    simp [speech_to_text, hv]

/-- Witness for C7 at a concrete nameless upload and a mocked transcript. -/
theorem transcribe_default_filename_witness :
    sttForwardedCall { filename := none, content := [7, 8, 9] } =
      { model := "whisper-1", filename := "audio.mp3", content := [7, 8, 9] } ∧
    speech_to_text { filename := none, content := [7, 8, 9] }
      (fun _ => .ok "hello world") = .ok { text := "hello world" } :=
  have h := transcribe_default_filename
    { filename := none, content := [7, 8, 9] } (fun _ => .ok "hello world")
  ⟨h.1 rfl, h.2 "hello world" rfl⟩

/-- C8 counterexample: an environment in which both required keys are set —
`OPENAI_API_KEY` to the empty string and `ELEVENLABS_API_KEY` to a non-empty
value — still fails the startup check, because `if not os.getenv(...)` also
rejects an empty value; so "if both are set, startup proceeds" is false. -/
theorem startup_check_counterexample :
    (fun k => if k = "OPENAI_API_KEY" then some "" else some "sk-live")
        "OPENAI_API_KEY" = some "" ∧
    (fun k => if k = "OPENAI_API_KEY" then some "" else some "sk-live")
        "ELEVENLABS_API_KEY" = some "sk-live" ∧
    startup_check
        (fun k => if k = "OPENAI_API_KEY" then some "" else some "sk-live") =
      Except.error "OPENAI_API_KEY is missing in .env" := by
  refine ⟨by simp, by simp, ?_⟩
  rfl

/-- C8 amended: startup fails, before any request is served, when either
required secret is unset or set to the empty string; when both are set to
non-empty values, startup proceeds past the check. -/
theorem startup_check_amended (env : String → Option String) :
    ((truthyStr (env "OPENAI_API_KEY") = false ∨
      truthyStr (env "ELEVENLABS_API_KEY") = false) →
      ∃ msg, startup_check env = Except.error msg) ∧
    (truthyStr (env "OPENAI_API_KEY") = true →
      truthyStr (env "ELEVENLABS_API_KEY") = true →
      startup_check env = Except.ok ()) := by
  constructor
  · intro h
    rcases h with h | h
    · exact ⟨"OPENAI_API_KEY is missing in .env", by simp [startup_check, h]⟩
    · by_cases ho : truthyStr (env "OPENAI_API_KEY") = true
      · exact ⟨"ELEVENLABS_API_KEY is missing in .env", by simp [startup_check, ho, h]⟩
      · exact ⟨"OPENAI_API_KEY is missing in .env",
          by simp [startup_check, Bool.eq_false_iff.mpr ho]⟩
  · intro h1 h2
    simp [startup_check, h1, h2]

/-- Witness for the amended C8: both keys set to non-empty values lets
startup proceed, and an unset `OPENAI_API_KEY` makes it fail. -/
theorem startup_check_amended_witness :
    startup_check (fun _ => some "sk-live") = Except.ok () ∧
    ∃ msg, startup_check (fun _ => none) = Except.error msg :=
  ⟨(startup_check_amended (fun _ => some "sk-live")).2 rfl rfl,
   (startup_check_amended (fun _ => none)).1 (Or.inl rfl)⟩
